import Mathlib

/-!
Verification of the 360°-video-to-OpenSfM-dataset converter (`src/app/main.py`).

The pipeline is shallowly embedded: Python floats become `ℚ` (exact
arithmetic), the mutable module-level `CAMERA_MODEL_JSON` dictionary becomes
explicit state threaded through runs, the external `ffmpeg` service (probe
and frame extraction) becomes an `Env` record of deterministic functions, and
the side effects of a run (files written, event order, reported frame count)
are collected in a `RunResult` record.
-/

namespace OpenSfM360

/-- Metadata of the first video stream as parsed from `ffmpeg.probe`
(`probe["streams"][0]`): `width`, `height`, and the already-`float()`-parsed
`duration` and `start_time` fields used at `main.py` lines 64–65. -/
structure ProbeInfo where
  width : Nat
  height : Nat
  duration : ℚ
  start_time : ℚ
deriving DecidableEq

/-- The nested `"all"` entry of the module-level `CAMERA_MODEL_JSON`
dictionary (`main.py` lines 11–17). -/
structure CameraAll where
  projection_type : String
  width : Nat
  height : Nat
deriving DecidableEq

/-- Initial value of the module-level `CAMERA_MODEL_JSON` template:
`{"all": {"projection_type": "equirectangular", "width": 1920, "height": 960}}`. -/
def initCameraModelJson : CameraAll :=
  { projection_type := "equirectangular", width := 1920, height := 960 }

/-- The module-level `CONFIG_YAML` dictionary (`main.py` lines 19–23),
written verbatim to `config.yaml`. -/
def CONFIG_YAML : List (String × Int) :=
  [("feature_process_size", 1024), ("feature_min_frames", 16000), ("processes", 8)]

/-- Result of the inner `seconds_to_hms` helper (`main.py` lines 75–79):
`hours = int(seconds // 3600)`, `minutes = int((seconds % 3600) // 60)`,
`secs = seconds % 60`, rendered as `HH:MM:SS.mmm`.  We keep the three
components; the string rendering is determined by them. -/
structure Hms where
  hours : ℤ
  minutes : ℤ
  secs : ℚ
deriving DecidableEq

/-- Python's `%` operator for a rational left operand and positive rational
modulus: `a % b = a - b * (a // b)` where `//` is floor division. -/
def pymod (a b : ℚ) : ℚ := a - b * ⌊a / b⌋

/-- `seconds_to_hms` from `main.py` lines 75–79, over exact arithmetic. -/
def seconds_to_hms (seconds : ℚ) : Hms :=
  { hours := ⌊seconds / 3600⌋
  , minutes := ⌊pymod seconds 3600 / 60⌋
  , secs := pymod seconds 60 }

/-- `start = min(0, max(start, 1))` — `main.py` line 36, verbatim. -/
def clampStart (start : ℚ) : ℚ := min 0 (max start 1)

/-- `end = min(1, max(end, 0))` — `main.py` line 37, verbatim. -/
def clampEnd (e : ℚ) : ℚ := min 1 (max e 0)

/-- Arguments of the frame-extraction invocation (`main.py` lines 86–95):
`ffmpeg.input(input_path, ss=start_hms, t=t_hms).output(images/frame_%04d.png,
vf="select=not(mod(n\,stride)),scale=width:height", vsync="vfr", qscale=2)`.
`scaleWidth`/`scaleHeight` are the scale target inside the `vf` filter. -/
structure ExtractArgs where
  input_path : String
  ss : Hms
  t : Hms
  video_stride : Nat
  scaleWidth : Nat
  scaleHeight : Nat
deriving DecidableEq

/-- External-world behaviour for one run: the probe result for the input
path, and the list of files the extraction process writes into the (fresh)
`images/` directory when invoked with the given arguments. -/
structure Env where
  probe : ProbeInfo
  extract : ExtractArgs → List String

/-- `image_dir.glob("*.png")` at `main.py` line 96: the files whose name
ends in `.png`. -/
def globPng (files : List String) : List String :=
  files.filter (fun f => ".png".data.isSuffixOf f.data)

/-- Observable steps of one `convert_video` call, in program order. -/
inductive Event where
  | rmtree
  | mkdirRoot
  | mkdirImages
  | probeCall
  | writeCameraFile
  | writeConfigFile
  | ffmpegRun
  | globCount
deriving DecidableEq

/-- Errors a run can raise.  `assertionError` is the failed
`assert start < end` at `main.py` line 38 (the spec's `InvalidWindow`). -/
inductive ConvertError where
  | assertionError
deriving DecidableEq

/-- Everything observable about one successful `convert_video` run. -/
structure RunResult where
  /-- `start` after line 64: the absolute seek position handed to ffmpeg. -/
  absoluteStart : ℚ
  /-- `t` from line 66: the `-t` trim duration handed to ffmpeg. -/
  clipDuration : ℚ
  /-- `width` chosen at lines 50–60 and used in the `scale=` filter. -/
  scaleWidth : Nat
  /-- `height` chosen at lines 50–60 and used in the `scale=` filter. -/
  scaleHeight : Nat
  /-- Contents (the `"all"` entry) written to `camera_models_overrides.json`. -/
  cameraFile : CameraAll
  /-- Contents written to `config.yaml`. -/
  configFile : List (String × Int)
  /-- The module-level `CAMERA_MODEL_JSON` template after the run. -/
  templateAfter : CameraAll
  /-- `start_hms` from line 81. -/
  startHms : Hms
  /-- `t_hms` from line 82. -/
  tHms : Hms
  /-- The arguments passed to the extraction invocation. -/
  extractArgs : ExtractArgs
  /-- Files present in `images/` after extraction (the directory was fresh). -/
  imagesFiles : List String
  /-- `num_frames` from line 96: `len(list(image_dir.glob("*.png")))`. -/
  numFramesReported : Nat
  /-- The Python function's return value (`None`; the signature is `-> None`). -/
  returnValue : Option Nat
  /-- Event trace of the run, in program order. -/
  events : List Event
deriving DecidableEq

/-- The effects of one `convert_video` run past the `assert` at line 38,
that is, `main.py` lines 39–97.

* `cameraModelJson` is the current value of the module-level
  `CAMERA_MODEL_JSON` template's nested `"all"` dictionary; the run's
  (possibly mutated) template is returned in `RunResult.templateAfter`.
  In the `override_video_dimensions` branch the code takes a *shallow*
  `.copy()` of the template dictionary and assigns into the shared nested
  `"all"` dictionary (lines 54–56), so the emitted file contents and the
  post-run template are the same updated record.
* `dirExists` models whether `dataset_dir` existed before the run
  (line 41's `dataset_dir.exists()`).
* The `try/except` at lines 63–68 cannot fail here because `ProbeInfo`
  carries already-parsed rationals. -/
def runBody (env : Env) (cameraModelJson : CameraAll) (dirExists : Bool)
    (input_path : String) (video_stride : Nat) (start e : ℚ)
    (override_video_dimensions : Bool) : RunResult :=
  let start1 := clampStart start
  let end1 := clampEnd e
  let resetEvents :=
    (if dirExists then [Event.rmtree] else []) ++ [Event.mkdirRoot, Event.mkdirImages]
  let probe := env.probe
  let width := if override_video_dimensions then probe.width else 1920
  let height := if override_video_dimensions then probe.height else 960
  let camera_model_overrides :=
    if override_video_dimensions then
      { cameraModelJson with width := probe.width, height := probe.height }
    else cameraModelJson
  let templateAfter :=
    if override_video_dimensions then
      { cameraModelJson with width := probe.width, height := probe.height }
    else cameraModelJson
  let start2 := start1 * probe.start_time
  let end2 := end1 * probe.duration
  let t := end2 - start2
  let start_hms := seconds_to_hms start2
  let t_hms := seconds_to_hms t
  let args : ExtractArgs :=
    { input_path := input_path, ss := start_hms, t := t_hms,
      video_stride := video_stride, scaleWidth := width, scaleHeight := height }
  let written := env.extract args
  let num_frames := (globPng written).length
  { absoluteStart := start2
  , clipDuration := t
  , scaleWidth := width
  , scaleHeight := height
  , cameraFile := camera_model_overrides
  , configFile := CONFIG_YAML
  , templateAfter := templateAfter
  , startHms := start_hms
  , tHms := t_hms
  , extractArgs := args
  , imagesFiles := written
  , numFramesReported := num_frames
  , returnValue := none
  , events := resetEvents ++
      [Event.probeCall, Event.writeCameraFile, Event.writeConfigFile,
       Event.ffmpegRun, Event.globCount] }

/-- Shallow embedding of `convert_video` (`main.py` lines 26–97): clamp the
two fractions (lines 36–37), check `assert start < end` (line 38), then run
the body (`runBody`, lines 39–97). -/
def convert_video (env : Env) (cameraModelJson : CameraAll) (dirExists : Bool)
    (input_path : String) (video_stride : Nat) (start e : ℚ)
    (override_video_dimensions : Bool) : Except ConvertError RunResult :=
  if _h : clampStart start < clampEnd e then
    Except.ok (runBody env cameraModelJson dirExists input_path video_stride
      start e override_video_dimensions)
  else
    Except.error ConvertError.assertionError

/-- Two consecutive runs in the same process: the second run starts from the
template state the first run left behind, the dataset directory exists after
the first run, and the first error aborts. -/
def runSeq (env : Env) (cameraModelJson : CameraAll) (dirExists : Bool)
    (input_path : String) (video_stride : Nat) (start e : ℚ)
    (ov1 ov2 : Bool) : Except ConvertError (RunResult × RunResult) :=
  Except.bind
    (convert_video env cameraModelJson dirExists input_path video_stride start e ov1)
    (fun r1 =>
      Except.map (fun r2 => (r1, r2))
        (convert_video env r1.templateAfter true input_path video_stride start e ov2))

/-- Trace elements strictly before the first extraction call. -/
def beforeExtraction (evs : List Event) : List Event :=
  evs.takeWhile (fun ev => match ev with | Event.ffmpegRun => false | _ => true)

/-- A sample environment: a 3840×1920 source of duration 10 s whose first
stream reports a start offset of 10 s; extraction writes one frame file. -/
def env0 : Env :=
  { probe := { width := 3840, height := 1920, duration := 10, start_time := 10 }
  , extract := fun _ => ["frame_0001.png"] }

/-- A successful run computes exactly `runBody`. -/
theorem convert_video_ok (env : Env) (cm : CameraAll) (d : Bool) (p : String)
    (stride : Nat) (start e : ℚ) (ov : Bool) (h : clampStart start < clampEnd e) :
    convert_video env cm d p stride start e ov =
      Except.ok (runBody env cm d p stride start e ov) :=
  dif_pos h

/-- A failed `assert` is the only error. -/
theorem convert_video_err (env : Env) (cm : CameraAll) (d : Bool) (p : String)
    (stride : Nat) (start e : ℚ) (ov : Bool) (h : ¬ clampStart start < clampEnd e) :
    convert_video env cm d p stride start e ov =
      Except.error ConvertError.assertionError :=
  dif_neg h

end OpenSfM360

namespace OpenSfM360

/-- The default window `start = 0`, `end = 1` passes the `assert`. -/
theorem clamp01_lt : clampStart 0 < clampEnd 1 := by
  norm_num [clampStart, clampEnd, min_def, max_def]

theorem runBody_cameraFile (env : Env) (cm : CameraAll) (d : Bool) (p : String)
    (stride : Nat) (start e : ℚ) (ov : Bool) :
    (runBody env cm d p stride start e ov).cameraFile =
      if ov then { cm with width := env.probe.width, height := env.probe.height } else cm := rfl

theorem runBody_templateAfter (env : Env) (cm : CameraAll) (d : Bool) (p : String)
    (stride : Nat) (start e : ℚ) (ov : Bool) :
    (runBody env cm d p stride start e ov).templateAfter =
      if ov then { cm with width := env.probe.width, height := env.probe.height } else cm := rfl

theorem runBody_extractArgs (env : Env) (cm : CameraAll) (d : Bool) (p : String)
    (stride : Nat) (start e : ℚ) (ov : Bool) :
    (runBody env cm d p stride start e ov).extractArgs =
      { input_path := p
      , ss := seconds_to_hms (clampStart start * env.probe.start_time)
      , t := seconds_to_hms
          (clampEnd e * env.probe.duration - clampStart start * env.probe.start_time)
      , video_stride := stride
      , scaleWidth := if ov then env.probe.width else 1920
      , scaleHeight := if ov then env.probe.height else 960 } := rfl

theorem runBody_numFrames (env : Env) (cm : CameraAll) (d : Bool) (p : String)
    (stride : Nat) (start e : ℚ) (ov : Bool) :
    (runBody env cm d p stride start e ov).numFramesReported =
      (globPng (env.extract (runBody env cm d p stride start e ov).extractArgs)).length := rfl

theorem runBody_imagesFiles (env : Env) (cm : CameraAll) (d : Bool) (p : String)
    (stride : Nat) (start e : ℚ) (ov : Bool) :
    (runBody env cm d p stride start e ov).imagesFiles =
      env.extract (runBody env cm d p stride start e ov).extractArgs := rfl

theorem runBody_returnValue (env : Env) (cm : CameraAll) (d : Bool) (p : String)
    (stride : Nat) (start e : ℚ) (ov : Bool) :
    (runBody env cm d p stride start e ov).returnValue = none := rfl

theorem runBody_configFile (env : Env) (cm : CameraAll) (d : Bool) (p : String)
    (stride : Nat) (start e : ℚ) (ov : Bool) :
    (runBody env cm d p stride start e ov).configFile = CONFIG_YAML := rfl

theorem runBody_events (env : Env) (cm : CameraAll) (d : Bool) (p : String)
    (stride : Nat) (start e : ℚ) (ov : Bool) :
    (runBody env cm d p stride start e ov).events =
      (if d then [Event.rmtree] else []) ++
        [Event.mkdirRoot, Event.mkdirImages, Event.probeCall, Event.writeCameraFile,
         Event.writeConfigFile, Event.ffmpegRun, Event.globCount] := by
  cases d <;> rfl

end OpenSfM360

namespace OpenSfM360

/-- C1: the claim says each fraction is clamped into `[0,1]` with in-range
values left unchanged; but line 36 computes `min(0, max(start, 1))`, which
sends the in-range start fraction `1/2` to `0` instead of leaving it alone —
the clamp order is inverted, contradicting the code's own comment
`# clip start and end to [0;1]`. -/
theorem c1_start_clamp_collapses_in_range_value :
    clampStart (1/2) = 0 ∧ (0 ≤ (1/2 : ℚ) ∧ (1/2 : ℚ) ≤ 1) ∧ clampStart (1/2) ≠ 1/2 := by
  norm_num [clampStart, min_def, max_def]

/-- C2: on every successful run, `absoluteStartSeconds` is the (post-clamp)
start fraction times the stream's reported start offset, and
`clipDurationSeconds` is the (post-clamp) end fraction times the duration
minus `absoluteStartSeconds` (`main.py` lines 63–66). -/
theorem c2_time_window_formula (env : Env) (cm : CameraAll) (d : Bool) (p : String)
    (stride : Nat) (start e : ℚ) (ov : Bool) (h : clampStart start < clampEnd e) :
    (convert_video env cm d p stride start e ov).toOption.map RunResult.absoluteStart
      = some (clampStart start * env.probe.start_time) ∧
    (convert_video env cm d p stride start e ov).toOption.map RunResult.clipDuration
      = some (clampEnd e * env.probe.duration - clampStart start * env.probe.start_time) := by
  rw [convert_video_ok env cm d p stride start e ov h]
  exact ⟨rfl, rfl⟩

/-- Witness for C2 at a concrete input. -/
theorem c2_time_window_formula_witness :
    clampStart 0 < clampEnd 1 ∧
    ((convert_video env0 initCameraModelJson true "video.mp4" 180 0 1 true).toOption.map
        RunResult.absoluteStart = some (clampStart 0 * env0.probe.start_time) ∧
     (convert_video env0 initCameraModelJson true "video.mp4" 180 0 1 true).toOption.map
        RunResult.clipDuration
        = some (clampEnd 1 * env0.probe.duration - clampStart 0 * env0.probe.start_time)) :=
  ⟨clamp01_lt,
   c2_time_window_formula env0 initCameraModelJson true "video.mp4" 180 0 1 true clamp01_lt⟩

/-- C3: for a 10 s video whose stream reports a 10 s start offset, with
`startFraction = 0.2` and `endFraction = 0.8`, the code resolves
`absoluteStartSeconds = 0` and `clipDurationSeconds = 8`, not the claimed
`≈ 2.0` and `≈ 6.0`: the inverted clamp of line 36 zeroes the start fraction
before it is multiplied by the stream start offset. -/
theorem c3_scenario_window_wrong :
    (convert_video env0 initCameraModelJson false "video.mp4" 1 (2/10) (8/10) true).toOption.map
        (fun r => (r.absoluteStart, r.clipDuration)) = some ((0 : ℚ), (8 : ℚ)) ∧
    (0 : ℚ) ≠ 2 ∧ (8 : ℚ) ≠ 6 := by
  norm_num [convert_video, runBody, clampStart, clampEnd, min_def, max_def, env0,
    Except.toOption]

/-- C4: the claim requires `startFraction = endFraction = 0.5` to fail with
`InvalidWindow`; but the code clamps the start fraction to `0` (line 36), so
the `assert 0 < 0.5` at line 38 passes and the run completes normally. -/
theorem c4_half_half_not_rejected :
    (convert_video env0 initCameraModelJson false "video.mp4" 180 (1/2) (1/2) true).toOption.isSome
      = true ∧
    clampStart (1/2) = 0 ∧ clampEnd (1/2) = 1/2 := by
  norm_num [convert_video, clampStart, clampEnd, min_def, max_def, Except.toOption]

/-- C5: a single run with `override_video_dimensions = True` on a 3840×1920
source mutates the shared `CAMERA_MODEL_JSON` template in place (lines 54–56
shallow-copy the outer dictionary and assign into the shared nested `"all"`
dictionary), leaving the template at 3840×1920 instead of unchanged. -/
theorem c5_shared_template_mutated :
    (convert_video env0 initCameraModelJson false "video.mp4" 180 0 1 true).toOption.map
        RunResult.templateAfter
      = some { projection_type := "equirectangular", width := 3840, height := 1920 } ∧
    ({ projection_type := "equirectangular", width := 3840, height := 1920 } : CameraAll)
      ≠ initCameraModelJson := by
  constructor
  · rw [convert_video_ok env0 initCameraModelJson false "video.mp4" 180 0 1 true clamp01_lt]
    simp [runBody_templateAfter, env0, initCameraModelJson, Except.toOption]
  · norm_num [initCameraModelJson]

/-- C6: after a first run with `override_video_dimensions = True` on a
3840×1920 source mutates the template, a second run in the same process with
`override_video_dimensions = False` writes a camera-model file recording
3840×1920 while passing 1920×960 as the scale target to the extraction call
— the two disagree, contradicting the claim (which the code only meets in a
fresh process). -/
theorem c6_camera_file_disagrees_with_scale :
    (runSeq env0 initCameraModelJson false "video.mp4" 180 0 1 true false).toOption.map
        (fun pr => (pr.2.cameraFile.width, pr.2.cameraFile.height,
                    pr.2.extractArgs.scaleWidth, pr.2.extractArgs.scaleHeight))
      = some (3840, 1920, 1920, 960) ∧ (3840 : Nat) ≠ 1920 := by
  refine ⟨?_, by norm_num⟩
  rw [runSeq, convert_video_ok env0 initCameraModelJson false "video.mp4" 180 0 1 true clamp01_lt]
  simp only [Except.bind]
  rw [convert_video_ok env0 _ true "video.mp4" 180 0 1 false clamp01_lt]
  simp only [Except.map, Except.toOption, Option.map]
  simp [runBody_cameraFile, runBody_extractArgs, runBody_templateAfter, env0]

/-- C7 counterexample: on a run that writes one frame, the reported frame
count is 1 but the function's value is `None` — `convert_video` does not
return the count (its annotated return type is `None`, line 33). -/
theorem c7_returns_none_counterexample :
    (convert_video env0 initCameraModelJson false "video.mp4" 180 0 1 true).toOption.map
        (fun r => (r.returnValue, r.numFramesReported)) = some ((none : Option Nat), 1) ∧
    (none : Option Nat) ≠ some 1 := by
  refine ⟨?_, by simp⟩
  rw [convert_video_ok env0 initCameraModelJson false "video.mp4" 180 0 1 true clamp01_lt]
  simp only [Except.toOption, Option.map, runBody_returnValue, runBody_numFrames,
    runBody_extractArgs, env0]
  decide

/-- C7 amended: after extraction, `convert_video` computes the frame count
by counting the `.png` files actually present in the images subdirectory
(exactly the files the extraction process wrote, the directory having been
fresh) rather than predicting it — but it only reports that count; the
function returns `None`. -/
theorem c7_reports_file_count_returns_none (env : Env) (cm : CameraAll) (d : Bool)
    (p : String) (stride : Nat) (start e : ℚ) (ov : Bool)
    (h : clampStart start < clampEnd e) :
    (convert_video env cm d p stride start e ov).toOption.map
        (fun r => (r.numFramesReported, r.imagesFiles, r.returnValue))
      = some ((globPng (env.extract (runBody env cm d p stride start e ov).extractArgs)).length,
              env.extract (runBody env cm d p stride start e ov).extractArgs,
              (none : Option Nat)) := by
  rw [convert_video_ok env cm d p stride start e ov h]
  rfl

/-- Witness for the amended C7 at a concrete input. -/
theorem c7_reports_file_count_returns_none_witness :
    clampStart 0 < clampEnd 1 ∧
    (convert_video env0 initCameraModelJson true "video.mp4" 180 0 1 true).toOption.map
        (fun r => (r.numFramesReported, r.imagesFiles, r.returnValue))
      = some ((globPng (env0.extract
                (runBody env0 initCameraModelJson true "video.mp4" 180 0 1 true).extractArgs)).length,
              env0.extract (runBody env0 initCameraModelJson true "video.mp4" 180 0 1 true).extractArgs,
              (none : Option Nat)) :=
  ⟨clamp01_lt,
   c7_reports_file_count_returns_none env0 initCameraModelJson true "video.mp4" 180 0 1 true
     clamp01_lt⟩

end OpenSfM360

namespace OpenSfM360

/-- C8: two consecutive runs with identical inputs, the same probe and the
same deterministic extraction behaviour report the same frame count and
write identical camera-model and config file contents (the directory reset
removes prior state, and the template mutation of run 1 is idempotent for
identical inputs). -/
theorem c8_second_run_matches_first (env : Env) (cm : CameraAll) (d : Bool) (p : String)
    (stride : Nat) (start e : ℚ) (ov : Bool) (h : clampStart start < clampEnd e) :
    (runSeq env cm d p stride start e ov ov).toOption.map
        (fun pr => (pr.1.numFramesReported, pr.1.cameraFile, pr.1.configFile))
      = (runSeq env cm d p stride start e ov ov).toOption.map
        (fun pr => (pr.2.numFramesReported, pr.2.cameraFile, pr.2.configFile)) ∧
    (runSeq env cm d p stride start e ov ov).toOption.isSome = true := by
  rw [runSeq, convert_video_ok env cm d p stride start e ov h]
  simp only [Except.bind]
  rw [convert_video_ok env _ true p stride start e ov h]
  simp only [Except.map, Except.toOption, Option.map, Option.isSome]
  refine ⟨?_, trivial⟩
  simp only [runBody_numFrames, runBody_extractArgs, runBody_cameraFile, runBody_configFile,
    runBody_templateAfter]
  cases ov <;> simp

/-- Witness for C8 at a concrete input. -/
theorem c8_second_run_matches_first_witness :
    clampStart 0 < clampEnd 1 ∧
    ((runSeq env0 initCameraModelJson true "video.mp4" 180 0 1 true true).toOption.map
        (fun pr => (pr.1.numFramesReported, pr.1.cameraFile, pr.1.configFile))
      = (runSeq env0 initCameraModelJson true "video.mp4" 180 0 1 true true).toOption.map
        (fun pr => (pr.2.numFramesReported, pr.2.cameraFile, pr.2.configFile)) ∧
     (runSeq env0 initCameraModelJson true "video.mp4" 180 0 1 true true).toOption.isSome
       = true) :=
  ⟨clamp01_lt,
   c8_second_run_matches_first env0 initCameraModelJson true "video.mp4" 180 0 1 true clamp01_lt⟩

/-- C9: on every successful run, the extraction call appears in the trace,
and the directory reset (`rmtree` when the directory existed, plus both
`mkdir`s) and both metadata writes all occur strictly before the first
extraction call. -/
theorem c9_metadata_before_extraction (env : Env) (cm : CameraAll) (d : Bool) (p : String)
    (stride : Nat) (start e : ℚ) (ov : Bool) (r : RunResult)
    (hr : convert_video env cm d p stride start e ov = Except.ok r) :
    Event.ffmpegRun ∈ r.events ∧
    Event.mkdirRoot ∈ beforeExtraction r.events ∧
    Event.mkdirImages ∈ beforeExtraction r.events ∧
    Event.writeCameraFile ∈ beforeExtraction r.events ∧
    Event.writeConfigFile ∈ beforeExtraction r.events ∧
    (d = true → Event.rmtree ∈ beforeExtraction r.events) := by
  by_cases h : clampStart start < clampEnd e
  · rw [convert_video_ok env cm d p stride start e ov h] at hr
    injection hr with hx
    subst hx
    rw [runBody_events]
    cases d <;> decide
  · rw [convert_video_err env cm d p stride start e ov h] at hr
    exact absurd hr (by simp)

/-- Witness for C9 at a concrete input (with a pre-existing directory). -/
theorem c9_metadata_before_extraction_witness :
    Event.ffmpegRun ∈ (runBody env0 initCameraModelJson true "video.mp4" 180 0 1 true).events ∧
    Event.mkdirRoot ∈
      beforeExtraction (runBody env0 initCameraModelJson true "video.mp4" 180 0 1 true).events ∧
    Event.mkdirImages ∈
      beforeExtraction (runBody env0 initCameraModelJson true "video.mp4" 180 0 1 true).events ∧
    Event.writeCameraFile ∈
      beforeExtraction (runBody env0 initCameraModelJson true "video.mp4" 180 0 1 true).events ∧
    Event.writeConfigFile ∈
      beforeExtraction (runBody env0 initCameraModelJson true "video.mp4" 180 0 1 true).events ∧
    (true = true → Event.rmtree ∈
      beforeExtraction (runBody env0 initCameraModelJson true "video.mp4" 180 0 1 true).events) :=
  c9_metadata_before_extraction env0 initCameraModelJson true "video.mp4" 180 0 1 true _
    (convert_video_ok env0 initCameraModelJson true "video.mp4" 180 0 1 true clamp01_lt)

/-- For positive modulus, Python's `%` is nonnegative. -/
theorem pymod_nonneg (a : ℚ) {b : ℚ} (hb : 0 < b) : 0 ≤ pymod a b := by
  have hbne : b ≠ 0 := ne_of_gt hb
  have h1 : ((⌊a / b⌋ : ℤ) : ℚ) * b ≤ a := by
    have h2 := mul_le_mul_of_nonneg_right (Int.floor_le (a / b)) hb.le
    rwa [div_mul_cancel₀ a hbne] at h2
  unfold pymod
  nlinarith

/-- For positive modulus, Python's `%` is below the modulus. -/
theorem pymod_lt (a : ℚ) {b : ℚ} (hb : 0 < b) : pymod a b < b := by
  have hbne : b ≠ 0 := ne_of_gt hb
  have h1 : a < (((⌊a / b⌋ : ℤ) : ℚ) + 1) * b := by
    have h2 := mul_lt_mul_of_pos_right (Int.lt_floor_add_one (a / b)) hb
    rwa [div_mul_cancel₀ a hbne] at h2
  unfold pymod
  nlinarith

/-- C10: for every nonnegative duration `s`, the components produced by
`seconds_to_hms` satisfy `hours = ⌊s/3600⌋`, `0 ≤ minutes < 60`,
`0 ≤ secs < 60`, and `hours·3600 + minutes·60 + secs = s` over exact
arithmetic, so the formatted timestamps denote exactly the computed window. -/
theorem c10_seconds_to_hms_components (s : ℚ) (_h : 0 ≤ s) :
    (seconds_to_hms s).hours = ⌊s / 3600⌋ ∧
    (0 ≤ (seconds_to_hms s).minutes ∧ (seconds_to_hms s).minutes < 60) ∧
    (0 ≤ (seconds_to_hms s).secs ∧ (seconds_to_hms s).secs < 60) ∧
    ((seconds_to_hms s).hours : ℚ) * 3600 + ((seconds_to_hms s).minutes : ℚ) * 60 +
        (seconds_to_hms s).secs = s := by
  have h60 : (0 : ℚ) < 60 := by norm_num
  have h3600 : (0 : ℚ) < 3600 := by norm_num
  refine ⟨rfl, ⟨?_, ?_⟩, ⟨pymod_nonneg s h60, pymod_lt s h60⟩, ?_⟩
  · exact Int.floor_nonneg.mpr (div_nonneg (pymod_nonneg s h3600) (by norm_num))
  · show ⌊pymod s 3600 / 60⌋ < 60
    have h1 : pymod s 3600 / 60 < ((60 : ℤ) : ℚ) := by
      rw [div_lt_iff₀ h60]
      calc pymod s 3600 < 3600 := pymod_lt s h3600
        _ = ((60 : ℤ) : ℚ) * 60 := by norm_num
    exact Int.floor_lt.mpr h1
  · show (((⌊s / 3600⌋ : ℤ) : ℚ)) * 3600 + ((⌊pymod s 3600 / 60⌋ : ℤ) : ℚ) * 60 +
        pymod s 60 = s
    have key : pymod s 3600 / 60 = s / 60 - ((60 * ⌊s / 3600⌋ : ℤ) : ℚ) := by
      unfold pymod
      push_cast
      ring
    rw [key, Int.floor_sub_int]
    unfold pymod
    push_cast
    ring

/-- Witness for C10 at `s = 29537/4` (= 2 h 3 min 4.25 s). -/
theorem c10_seconds_to_hms_components_witness :
    (0 : ℚ) ≤ 29537/4 ∧
    ((seconds_to_hms (29537/4)).hours = ⌊(29537/4 : ℚ) / 3600⌋ ∧
     (0 ≤ (seconds_to_hms (29537/4)).minutes ∧ (seconds_to_hms (29537/4)).minutes < 60) ∧
     (0 ≤ (seconds_to_hms (29537/4)).secs ∧ (seconds_to_hms (29537/4)).secs < 60) ∧
     ((seconds_to_hms (29537/4)).hours : ℚ) * 3600 +
        ((seconds_to_hms (29537/4)).minutes : ℚ) * 60 +
        (seconds_to_hms (29537/4)).secs = 29537/4) :=
  ⟨by norm_num, c10_seconds_to_hms_components (29537/4) (by norm_num)⟩

end OpenSfM360
